import Mathlib

/-!
Verification development for the `monitor-contas` repository: a shallow
embedding of the bill extractor (`extract_bill_data.py`), the weather
updater (`extract_weather.py`) and the dashboard's forecast logic
(`dashboard.py`), together with theorems settling the specification's
claims about them.

Modelling conventions:
* Calendar dates are day numbers (`ℤ`), obtained from civil dates with
  `daysFromCivil` (the standard days-from-civil algorithm, proleptic
  Gregorian, day 0 = 0000-03-01).  Python `datetime` timestamps that may
  carry a time of day (results of `datetime.now()`) are rationals (`ℚ`),
  measured in days, so that date arithmetic `± timedelta(days = n)` is
  `± n`.
* Float arithmetic is modelled by exact rational arithmetic (`ℚ`).
* JSON values in the weather store's `daily` lists are `JVal`: a date
  string `"YYYY-MM-DD"` is represented by its parsed day number, a float
  by a rational.
* File-system stores that may be absent or unreadable are `Option`s;
  external HTTP calls are oracle function parameters, returning `none`
  when the call raises.
-/

/-- Days-from-civil date algorithm (proleptic Gregorian calendar):
day number of the date `y-m-d`, counted from 0000-03-01. Used to model
Python `datetime` values for concrete calendar dates. -/
def daysFromCivil (y m d : ℕ) : ℕ :=
  let y' := if m ≤ 2 then y - 1 else y
  let era := y' / 400
  let yoe := y' % 400
  let mp := (m + 9) % 12
  let doy := (153 * mp + 2) / 5 + d - 1
  let doe := yoe * 365 + yoe / 4 - yoe / 100 + doy
  era * 146097 + doe

/-- A JSON scalar appearing in the weather store's `daily` lists: either a
date string (represented by its parsed day number) or a number. -/
inductive JVal where
  | date (d : ℤ)
  | num (q : ℚ)
deriving DecidableEq, Repr

/-- The weather history store: a JSON object `{"daily": {field: [values]}}`.
The `daily` object is an association list (insertion-ordered, distinct
keys in practice). -/
structure WeatherData where
  daily : List (String × List JVal)
deriving DecidableEq, Repr

/-- Lookup of a key in a JSON-object association list (`key in obj` /
`obj[key]` in the Python source). -/
def lookupD (k : String) : List (String × List JVal) → Option (List JVal)
  | [] => none
  | kv :: rest => if kv.1 = k then some kv.2 else lookupD k rest

/-- Treatment of one existing `daily` field by `merge_data`: when the
new data also has the field, append the new values after the old ones
(`existing["daily"][key].extend(new_data["daily"][key])`); otherwise
leave the entry unchanged. -/
def mergeEntry (ndaily : List (String × List JVal)) (kv : String × List JVal) :
    String × List JVal :=
  match lookupD kv.1 ndaily with
  | some ws => (kv.1, kv.2 ++ ws)
  | none => kv

/-- Model of `merge_data` from `extract_weather.py`: if the existing
store is falsy (absent/empty), return the new data; otherwise, for each
field of the existing `daily` object, append the new data's values for
that field when present. -/
def merge_data : Option WeatherData → WeatherData → WeatherData
  | none, new_data => new_data
  | some existing, new_data => ⟨existing.daily.map (mergeEntry new_data.daily)⟩

/-- The last recorded date of a weather store:
`data["daily"]["time"][-1]` parsed with `%Y-%m-%d`.  `none` models every
path where `get_start_date` cannot obtain it (missing `daily`/`time`
key, empty `time` list raising `IndexError`, unparsable last entry
raising `ValueError`) and falls through to the bills fallback. -/
def lastTimeOf (w : WeatherData) : Option ℤ :=
  match lookupD "time" w.daily with
  | some vs =>
    match vs.getLast? with
    | some (JVal.date d) => some d
    | some (JVal.num _) => none
    | none => none
  | none => none

/-- Model of Python `min(dates)` over a list of day numbers (`none` on
the empty list). -/
def minDate : List ℤ → Option ℤ
  | [] => none
  | d :: ds =>
    match minDate ds with
    | none => some d
    | some m => some (min d m)

/-- State visible to `extract_weather.py`: the weather store
(`weather_history.json`; `none` when absent, unreadable or empty) and
the bills store (`bills_history.json`; each bill contributes its
`leitura_atual` reading date, `none` when that field fails to parse as
`%d/%m/%Y`). -/
structure PState where
  weather : Option WeatherData
  bills : Option (List (Option ℤ))
deriving DecidableEq, Repr

/-- Fallback of `get_start_date` when no usable weather history exists:
35 days before the earliest parseable bill reading date, else 365 days
before now. -/
def bills_fallback (now : ℤ) (s : PState) : ℤ :=
  match s.bills with
  | some bills =>
    match minDate (bills.filterMap id) with
    | some m => m - 35
    | none => now - 365
  | none => now - 365

/-- Model of `get_start_date` from `extract_weather.py`: one day after
the last recorded weather date when available, otherwise the bills
fallback. -/
def get_start_date (now : ℤ) (s : PState) : ℤ :=
  match s.weather with
  | some w =>
    match lastTimeOf w with
    | some last_date => last_date + 1
    | none => bills_fallback now s
  | none => bills_fallback now s

/-- The `end_date` computed in `update_weather_data`: now minus 2 days. -/
def end_date_of (now : ℤ) : ℤ := now - 2

/-- Model of `update_weather_data` from `extract_weather.py`.  `fetch` is the
oracle for `fetch_weather` (HTTP call; `none` models a raised
network/parse error, caught and reported as `False`).  Returns the
reported success flag and the resulting store state. -/
def update_weather_data (now : ℤ) (fetch : ℤ → ℤ → Option WeatherData)
    (s : PState) : Bool × PState :=
  let start_date := get_start_date now s
  let end_date := end_date_of now
  if start_date > end_date then (true, s)
  else
    match fetch start_date end_date with
    | none => (false, s)
    | some new_weather =>
      (true, { s with weather := some (merge_data s.weather new_weather) })

/-! ## Bill extractor (`extract_bill_data.py`) -/

/-- One record of `bills_history.json` as the extractor sees it: the
`arquivo_origem` source-filename key (`none` when the field is absent)
and the rest of the extracted payload, abstracted as `α`. -/
structure BillRec (α : Type) where
  arquivo_origem : Option String
  payload : α
deriving DecidableEq, Repr

/-- All source-filename keys present in a bill history. -/
def keysOf {α : Type} (history : List (BillRec α)) : List String :=
  history.filterMap (·.arquivo_origem)

/-- The set `processed_files` in `process_all_faturas`: the truthy
`arquivo_origem` values (`item.get("arquivo_origem")` filters out both
missing keys and the falsy empty string). -/
def processedSet {α : Type} (history : List (BillRec α)) : List String :=
  history.filterMap fun r =>
    match r.arquivo_origem with
    | some s => if s = "" then none else some s
    | none => none

/-- The per-file loop of `process_all_faturas`.  `extract` is the oracle
for `extract_data` + JSON parsing (`none` models the caught per-file
exception).  Carries the history, the `processed_files` set and
`new_data_count`. -/
def processLoop {α : Type} (extract : String → Option α) :
    List String → List (BillRec α) → List String → ℕ → ℕ × List (BillRec α)
  | [], history, _, count => (count, history)
  | f :: fs, history, processed, count =>
    if f ∈ processed then processLoop extract fs history processed count
    else
      match extract f with
      | some d =>
        processLoop extract fs (history ++ [⟨some f, d⟩]) (f :: processed) (count + 1)
      | none => processLoop extract fs history processed count

/-- Model of `process_all_faturas` from `extract_bill_data.py`: runs the per-file
loop over the directory listing starting from the stored history's
processed set, returning the count of new records and the final
history. -/
def process_all_faturas {α : Type} (extract : String → Option α)
    (dir : List String) (history : List (BillRec α)) : ℕ × List (BillRec α) :=
  processLoop extract dir history (processedSet history) 0

/-! ## Dashboard (`dashboard.py`) -/

/-- The weather-entry selection of `load_data`: entries of the weather
series (day number, mean temperature) whose date lies between
`read_date - 30` and `read_date`, both inclusive
(`index >= start_date & index <= read_date`). -/
def selectPeriod (weather : List (ℤ × ℚ)) (read_date : ℤ) : List (ℤ × ℚ) :=
  let start_date := read_date - 30
  weather.filter fun p => start_date ≤ p.1 ∧ p.1 ≤ read_date

/-- The `temp_media` value attached to each bill by `load_data`: the mean of
`temperature_2m_mean` over the selected trailing window, `none` when
that window is empty. -/
def temp_media (weather : List (ℤ × ℚ)) (read_date : ℤ) : Option ℚ :=
  let period_temps := (selectPeriod weather read_date).map Prod.snd
  if period_temps.isEmpty then none
  else some (period_temps.sum / period_temps.length)

/-- The padding step of the hybrid forecast (`dashboard.py`): a combined
temperature list shorter than 30 entries is extended to 30 with copies
of the mean collected so far (25.0 when the list is empty). -/
def padTemps (full_temps : List ℚ) : List ℚ :=
  if full_temps.length < 30 then
    let missing := 30 - full_temps.length
    let avg_so_far :=
      if full_temps.isEmpty then (25 : ℚ)
      else full_temps.sum / full_temps.length
    full_temps ++ List.replicate missing avg_so_far
  else full_temps

/-- Model of `pred_consumption` (`dashboard.py` line 170). -/
def pred_consumption (avg_factor hybrid_avg_temp : ℚ) : ℚ :=
  avg_factor * hybrid_avg_temp

/-- Model of `pred_cost` (`dashboard.py` line 171). -/
def pred_cost (consumption avg_cost_kwh : ℚ) : ℚ :=
  consumption * avg_cost_kwh

/-- Result shape expected from the (missing) `fetch_forecast` call:
`{"daily": {"time": [...], "temperature_2m_mean": [...]}}`, dates
already parsed to timestamps. -/
structure ForecastData where
  time : List ℚ
  temps : List ℚ
deriving DecidableEq, Repr

/-- The projection record built by the hybrid forecast (numeric fields;
the `mes_referencia` label and the constant `type` tag are
display-only strings and carry no data used by any claim). -/
structure Projection where
  consumo_kwh : ℚ
  valor_total : ℚ
  temp_media : ℚ
deriving DecidableEq, Repr

/-- The body of the hybrid forecast block (`dashboard.py` lines
127-189), after the `from extract_weather import ...` statement:
determines the current billing cycle from the last valid bill's reading
date, and when today is past the cycle start, blends recorded past
temperatures with forecast temperatures (via the `fetch_forecast`
oracle; `none` models a falsy result), pads to 30 days and emits the
projection record. -/
def forecastBody (fetch_forecast : ℕ → Option ForecastData)
    (df_weather : List (ℚ × ℚ)) (last_bill_date today avg_factor avg_cost_kwh : ℚ) :
    Option Projection :=
  let cycle_start := last_bill_date + 1
  let cycle_end := cycle_start + 30
  if today > cycle_start then
    let days_future := ⌊cycle_end - today⌋
    let forecast_data := fetch_forecast (max 1 (days_future + 5)).toNat
    let past_temps :=
      (df_weather.filter fun p => cycle_start ≤ p.1 ∧ p.1 < today).map Prod.snd
    let future_temps :=
      match forecast_data with
      | some fd =>
        (fd.time.zip fd.temps).filterMap fun dt =>
          if today ≤ dt.1 ∧ dt.1 ≤ cycle_end then some dt.2 else none
      | none => []
    let full_temps := padTemps (past_temps ++ future_temps)
    let hybrid_avg_temp := full_temps.sum / full_temps.length
    some { consumo_kwh := pred_consumption avg_factor hybrid_avg_temp
           valor_total :=
             pred_cost (pred_consumption avg_factor hybrid_avg_temp) avg_cost_kwh
           temp_media := hybrid_avg_temp }
  else none

/-- The module-level names bound in `extract_weather.py` (imports,
constants and function definitions), i.e. the names available to
`from extract_weather import ...`. -/
def extract_weather_module_names : List String :=
  ["requests", "json", "os", "datetime", "timedelta",
   "LATITUDE", "LONGITUDE", "WEATHER_FILE", "BILLS_FILE",
   "get_start_date", "fetch_weather", "merge_data", "update_weather_data"]

/-- The statement `from extract_weather import fetch_forecast,
get_start_date` (`dashboard.py` line 125): succeeds only when both names
are module-level attributes of `extract_weather`. -/
def importHybridNames : Except String Unit :=
  if "fetch_forecast" ∈ extract_weather_module_names ∧
      "get_start_date" ∈ extract_weather_module_names then Except.ok ()
  else Except.error "ImportError: cannot import name fetch_forecast from extract_weather"

/-- The whole `try:` block of the hybrid forecast (`dashboard.py` lines
124-189): first the import statement, then the forecast body; an
exception is propagated as `Except.error`. -/
def hybridForecast (fetch_forecast : ℕ → Option ForecastData)
    (df_weather : List (ℚ × ℚ)) (last_bill_date today avg_factor avg_cost_kwh : ℚ) :
    Except String (Option Projection) :=
  match importHybridNames with
  | Except.ok _ =>
    Except.ok (forecastBody fetch_forecast df_weather last_bill_date today
      avg_factor avg_cost_kwh)
  | Except.error e => Except.error e

/-- The value `projection_data` as the dashboard sees it after the
`except Exception` handler: the body's result, or `None` when any
exception was raised inside the `try:` block. -/
def projection_data (fetch_forecast : ℕ → Option ForecastData)
    (df_weather : List (ℚ × ℚ)) (last_bill_date today avg_factor avg_cost_kwh : ℚ) :
    Option Projection :=
  match hybridForecast fetch_forecast df_weather last_bill_date today
      avg_factor avg_cost_kwh with
  | Except.ok p => p
  | Except.error _ => none

/-! ## Helper lemmas -/

lemma mergeEntry_fst (ndaily : List (String × List JVal)) (kv : String × List JVal) :
    (mergeEntry ndaily kv).1 = kv.1 := by
  unfold mergeEntry
  cases lookupD kv.1 ndaily <;> rfl

lemma lookupD_map_mergeEntry_some (ndaily : List (String × List JVal)) (k : String) :
    ∀ (l : List (String × List JVal)) (vs : List JVal), lookupD k l = some vs →
      lookupD k (l.map (mergeEntry ndaily)) = some (vs ++ (lookupD k ndaily).getD []) := by
  intro l
  induction l with
  | nil => intro vs h; simp [lookupD] at h
  | cons kv rest ih =>
    intro vs h
    by_cases hk : kv.1 = k
    · rw [lookupD, if_pos hk] at h
      injection h with h'
      subst h'
      rw [List.map_cons, lookupD, if_pos ((mergeEntry_fst ndaily kv).trans hk)]
      unfold mergeEntry
      rw [hk]
      cases hnd : lookupD k ndaily with
      | some ws => simp
      | none => simp
    · rw [lookupD, if_neg hk] at h
      rw [List.map_cons, lookupD, if_neg (by rw [mergeEntry_fst]; exact hk)]
      exact ih vs h

lemma lookupD_map_mergeEntry_none (ndaily : List (String × List JVal)) (k : String) :
    ∀ l : List (String × List JVal), lookupD k l = none →
      lookupD k (l.map (mergeEntry ndaily)) = none := by
  intro l
  induction l with
  | nil => intro _; rfl
  | cons kv rest ih =>
    intro h
    by_cases hk : kv.1 = k
    · rw [lookupD, if_pos hk] at h; exact absurd h (by simp)
    · rw [lookupD, if_neg hk] at h
      rw [List.map_cons, lookupD, if_neg (by rw [mergeEntry_fst]; exact hk)]
      exact ih h

lemma map_fst_map_mergeEntry (ndaily : List (String × List JVal)) :
    ∀ l : List (String × List JVal),
      (l.map (mergeEntry ndaily)).map Prod.fst = l.map Prod.fst := by
  intro l
  induction l with
  | nil => rfl
  | cons kv rest ih => rw [List.map_cons, List.map_cons, mergeEntry_fst, List.map_cons, ih]

/-! ## Concrete stores used by witnesses -/

/-- The existing weather store of the spec's merge example:
`{"daily":{"time":["2024-01-01"],"temperature_2m_mean":[20]}}`. -/
def exWeatherOld : WeatherData :=
  ⟨[("time", [JVal.date (daysFromCivil 2024 1 1)]),
    ("temperature_2m_mean", [JVal.num 20])]⟩

/-- The new weather data of the spec's merge example:
`{"daily":{"time":["2024-01-02"],"temperature_2m_mean":[22]}}`. -/
def exWeatherNew : WeatherData :=
  ⟨[("time", [JVal.date (daysFromCivil 2024 1 2)]),
    ("temperature_2m_mean", [JVal.num 22])]⟩

/-- An existing store with a field the new data lacks. -/
def exFrameOld : WeatherData :=
  ⟨[("time", [JVal.date 1]), ("old_only", [JVal.num 1])]⟩

/-- New data with a field the existing store lacks. -/
def exFrameNew : WeatherData :=
  ⟨[("time", [JVal.date 2]), ("new_only", [JVal.num 2])]⟩

/-! ## Claims -/

/-- C5: for every field name present in both the existing store's
`daily` section and the new data's `daily` section, `merge_data`
concatenates the new value list after the old one. -/
theorem c5_merge_concatenates (existing new_data : WeatherData) (k : String)
    (vs ws : List JVal)
    (h1 : lookupD k existing.daily = some vs)
    (h2 : lookupD k new_data.daily = some ws) :
    lookupD k (merge_data (some existing) new_data).daily = some (vs ++ ws) := by
  have h := lookupD_map_mergeEntry_some new_data.daily k existing.daily vs h1
  rw [h2] at h
  exact h

/-- C5 witness: the spec's concrete example, merging
`{"daily":{"time":["2024-01-01"],"temperature_2m_mean":[20]}}` with
`{"daily":{"time":["2024-01-02"],"temperature_2m_mean":[22]}}` yields
daily lists `{"time":["2024-01-01","2024-01-02"],
"temperature_2m_mean":[20,22]}`. -/
theorem c5_merge_concatenates_witness :
    lookupD "time" (merge_data (some exWeatherOld) exWeatherNew).daily
      = some [JVal.date (daysFromCivil 2024 1 1), JVal.date (daysFromCivil 2024 1 2)] ∧
    lookupD "temperature_2m_mean" (merge_data (some exWeatherOld) exWeatherNew).daily
      = some [JVal.num 20, JVal.num 22] :=
  ⟨c5_merge_concatenates exWeatherOld exWeatherNew "time" _ _ rfl rfl,
   c5_merge_concatenates exWeatherOld exWeatherNew "temperature_2m_mean" _ _ rfl rfl⟩

/-- C10: when the existing weather store is non-empty (truthy),
`merge_data` returns a store whose `daily` section has exactly the
existing store's field names: a field present only in the new data is
silently discarded, and a field present only in the existing store is
left unchanged. -/
theorem c10_merge_frame (existing new_data : WeatherData) :
    (merge_data (some existing) new_data).daily.map Prod.fst
        = existing.daily.map Prod.fst ∧
    (∀ k, lookupD k existing.daily = none →
      lookupD k (merge_data (some existing) new_data).daily = none) ∧
    (∀ k vs, lookupD k existing.daily = some vs →
      lookupD k new_data.daily = none →
      lookupD k (merge_data (some existing) new_data).daily = some vs) := by
  refine ⟨map_fst_map_mergeEntry new_data.daily existing.daily, ?_, ?_⟩
  · intro k hk
    exact lookupD_map_mergeEntry_none new_data.daily k existing.daily hk
  · intro k vs hk hn
    have h := lookupD_map_mergeEntry_some new_data.daily k existing.daily vs hk
    rw [hn] at h
    simpa using h

/-- C10 witness: a concrete merge where `new_only` is discarded and
`old_only` is left unchanged, and the field names of the result are
exactly the existing store's. -/
theorem c10_merge_frame_witness :
    (merge_data (some exFrameOld) exFrameNew).daily.map Prod.fst
        = exFrameOld.daily.map Prod.fst ∧
    lookupD "new_only" (merge_data (some exFrameOld) exFrameNew).daily = none ∧
    lookupD "old_only" (merge_data (some exFrameOld) exFrameNew).daily
        = some [JVal.num 1] :=
  ⟨(c10_merge_frame exFrameOld exFrameNew).1,
   (c10_merge_frame exFrameOld exFrameNew).2.1 "new_only" rfl,
   (c10_merge_frame exFrameOld exFrameNew).2.2 "old_only" [JVal.num 1] rfl rfl⟩

/-- C1: for every input state, the dashboard's hybrid-forecast block
raises `ImportError` before computing anything (`fetch_forecast` is not
a module-level name of `extract_weather`), so `projection_data` is
always `None` and no projection record is ever emitted. -/
theorem c1_import_always_fails (fetch_forecast : ℕ → Option ForecastData)
    (df_weather : List (ℚ × ℚ)) (last_bill_date today avg_factor avg_cost_kwh : ℚ) :
    hybridForecast fetch_forecast df_weather last_bill_date today avg_factor
        avg_cost_kwh
      = Except.error "ImportError: cannot import name fetch_forecast from extract_weather" ∧
    projection_data fetch_forecast df_weather last_bill_date today avg_factor
        avg_cost_kwh = none := by
  constructor <;> rfl

/-- C2: a combined elapsed+remaining temperature list with fewer than 30
entries is padded to exactly 30 entries, every padding value being the
arithmetic mean of the entries collected so far (25.0 when the list is
empty). -/
theorem c2_padding (full_temps : List ℚ) (h : full_temps.length < 30) :
    (padTemps full_temps).length = 30 ∧
    ∀ x ∈ (padTemps full_temps).drop full_temps.length,
      x = if full_temps.isEmpty then (25 : ℚ)
          else full_temps.sum / full_temps.length := by
  unfold padTemps
  rw [if_pos h]
  constructor
  · rw [List.length_append, List.length_replicate]
    omega
  · intro x hx
    rw [List.drop_left] at hx
    exact List.eq_of_mem_replicate hx

/-- C2 witness: the padding applied to the one-entry list `[20.0]`. -/
theorem c2_padding_witness :
    (padTemps [(20 : ℚ)]).length = 30 ∧
    ∀ x ∈ (padTemps [(20 : ℚ)]).drop ([(20 : ℚ)]).length,
      x = if ([(20 : ℚ)]).isEmpty then (25 : ℚ)
          else ([(20 : ℚ)]).sum / ([(20 : ℚ)]).length :=
  c2_padding [(20 : ℚ)] (by decide)

/-- C3: the projection computes `predicted_consumption = avg_factor ×
hybrid_avg_temp` and `predicted_cost = predicted_consumption ×
avg_cost_per_unit`; in particular, for `avg_factor = 10`,
`hybrid_avg_temp = 25`, `avg_cost_per_unit = 0.8` it yields predicted
consumption 250 and predicted cost 200.0. -/
theorem c3_prediction_formulas :
    (∀ avg_factor hybrid_avg_temp avg_cost_kwh : ℚ,
      pred_consumption avg_factor hybrid_avg_temp = avg_factor * hybrid_avg_temp ∧
      pred_cost (pred_consumption avg_factor hybrid_avg_temp) avg_cost_kwh
        = avg_factor * hybrid_avg_temp * avg_cost_kwh) ∧
    pred_consumption 10 25 = 250 ∧
    pred_cost (pred_consumption 10 25) (0.8 : ℚ) = 200 := by
  refine ⟨fun a h c => ⟨rfl, rfl⟩, by norm_num [pred_consumption],
    by norm_num [pred_consumption, pred_cost]⟩

/-- C9: if today is not strictly past the cycle start (the day after the
most recent bill's reading date), the forecast body produces no
projection record. -/
theorem c9_no_projection_before_cycle (fetch_forecast : ℕ → Option ForecastData)
    (df_weather : List (ℚ × ℚ)) (last_bill_date today avg_factor avg_cost_kwh : ℚ)
    (h : today ≤ last_bill_date + 1) :
    forecastBody fetch_forecast df_weather last_bill_date today avg_factor
      avg_cost_kwh = none := by
  have hng : ¬ (last_bill_date + 1 < today) := not_lt.mpr h
  simp only [forecastBody, gt_iff_lt]
  rw [if_neg hng]

/-- C9 witness: with the last reading at day 0 and today at day 0, no
projection is produced. -/
theorem c9_no_projection_before_cycle_witness :
    forecastBody (fun _ => none) [] 0 0 0 0 = none :=
  c9_no_projection_before_cycle (fun _ => none) [] 0 0 0 0 (by norm_num)

/-- C4: after a successful first call to `update_weather_data` that
records data through `end_date`, an immediately repeated call (same
`now`) finds `start_date` strictly greater than `end_date`, performs no
fetch and no write (the result does not depend on the fetch oracle and
the state is returned unchanged), and reports success. -/
theorem c4_update_idempotent (now : ℤ) (fetch : ℤ → ℤ → Option WeatherData)
    (s s' : PState)
    (_h1 : update_weather_data now fetch s = (true, s'))
    (h2 : s'.weather.bind lastTimeOf = some (end_date_of now)) :
    get_start_date now s' > end_date_of now ∧
    ∀ fetch2, update_weather_data now fetch2 s' = (true, s') := by
  cases hw : s'.weather with
  | none => rw [hw] at h2; simp at h2
  | some w =>
    rw [hw] at h2
    simp only [Option.some_bind, end_date_of] at h2
    have hgs : get_start_date now s' = now - 1 := by
      simp only [get_start_date, hw, h2]
      omega
    have hlt : end_date_of now < now - 1 := by
      simp only [end_date_of]; omega
    refine ⟨by rw [hgs]; exact hlt, fun fetch2 => ?_⟩
    simp only [update_weather_data, hgs, gt_iff_lt]
    rw [if_pos hlt]

/-- The fetch oracle used by the C4 witness: the weather API returns a
series whose last recorded date is day 998 (= `end_date` for
`now = 1000`). -/
def c4Fetch : ℤ → ℤ → Option WeatherData :=
  fun _ _ => some ⟨[("time", [JVal.date 998]), ("temperature_2m_mean", [JVal.num 24])]⟩

/-- The initial state of the C4 witness: no weather store, no bills store. -/
def c4S0 : PState := ⟨none, none⟩

/-- The state after the first C4 witness call. -/
def c4S1 : PState :=
  ⟨some ⟨[("time", [JVal.date 998]), ("temperature_2m_mean", [JVal.num 24])]⟩, none⟩

/-- C4 witness: a concrete successful first call at `now = 1000`
recording data through day 998, after which a second call with any
oracle (here one that always fails) is a successful no-op. -/
theorem c4_update_idempotent_witness :
    update_weather_data 1000 c4Fetch c4S0 = (true, c4S1) ∧
    get_start_date 1000 c4S1 > end_date_of 1000 ∧
    update_weather_data 1000 (fun _ _ => none) c4S1 = (true, c4S1) := by
  have h1 : update_weather_data 1000 c4Fetch c4S0 = (true, c4S1) := by decide
  have h2 : c4S1.weather.bind lastTimeOf = some (end_date_of 1000) := by decide
  exact ⟨h1, (c4_update_idempotent 1000 c4Fetch c4S0 c4S1 h1 h2).1,
    (c4_update_idempotent 1000 c4Fetch c4S0 c4S1 h1 h2).2 (fun _ _ => none)⟩

/-- C6: the weather updater's `start_date` is chosen by priority —
(a) one day after the last recorded weather date when the weather
history yields one, (b) 35 days before the earliest parseable bill
reading date when it does not but bills with a parseable date exist,
(c) 365 days before now otherwise — and `end_date` is always now minus
2 days. -/
theorem c6_start_date_priority (now : ℤ) (s : PState) :
    (∀ w last_date, s.weather = some w → lastTimeOf w = some last_date →
      get_start_date now s = last_date + 1) ∧
    (s.weather.bind lastTimeOf = none →
      ∀ bills m, s.bills = some bills → minDate (bills.filterMap id) = some m →
      get_start_date now s = m - 35) ∧
    (s.weather.bind lastTimeOf = none →
      (s.bills = none ∨ ∃ bills, s.bills = some bills ∧ bills.filterMap id = []) →
      get_start_date now s = now - 365) ∧
    end_date_of now = now - 2 := by
  refine ⟨?_, ?_, ?_, rfl⟩
  · intro w last_date hw hl
    simp only [get_start_date, hw, hl]
  · intro hnone bills m hb hm
    have hfall : get_start_date now s = bills_fallback now s := by
      cases hw : s.weather with
      | none => simp only [get_start_date, hw]
      | some w =>
        rw [hw] at hnone
        simp only [Option.some_bind] at hnone
        simp only [get_start_date, hw, hnone]
    rw [hfall]
    simp only [bills_fallback, hb, hm]
  · intro hnone hb
    have hfall : get_start_date now s = bills_fallback now s := by
      cases hw : s.weather with
      | none => simp only [get_start_date, hw]
      | some w =>
        rw [hw] at hnone
        simp only [Option.some_bind] at hnone
        simp only [get_start_date, hw, hnone]
    rw [hfall]
    rcases hb with hb | ⟨bills, hb, hdates⟩
    · simp only [bills_fallback, hb]
    · simp only [bills_fallback, hb, hdates, minDate]

/-- The state of the C6 witness for branch (a): weather history ending
on day 10. -/
def c6Sa : PState := ⟨some ⟨[("time", [JVal.date 5, JVal.date 10])]⟩, none⟩

/-- The state of the C6 witness for branch (b): no weather store; bills
with parseable reading dates 100 and 50 and one unparseable date. -/
def c6Sb : PState := ⟨none, some [some 100, none, some 50]⟩

/-- The state of the C6 witness for branch (c): no weather store; a
bills store whose only record has an unparseable reading date. -/
def c6Sc : PState := ⟨none, some [none]⟩

/-- C6 witness: the three priority branches at concrete states with
`now = 0`, and the end date at `now = 0`. -/
theorem c6_start_date_priority_witness :
    get_start_date 0 c6Sa = 11 ∧
    get_start_date 0 c6Sb = 15 ∧
    get_start_date 0 c6Sc = -365 ∧
    end_date_of 0 = -2 :=
  ⟨(c6_start_date_priority 0 c6Sa).1 _ 10 rfl (by decide),
   (c6_start_date_priority 0 c6Sb).2.1 (by decide) [some 100, none, some 50] 50
     rfl (by decide),
   (c6_start_date_priority 0 c6Sc).2.2.1 (by decide)
     (Or.inr ⟨[none], rfl, rfl⟩),
   (c6_start_date_priority 0 c6Sc).2.2.2⟩

/-- C7: the trailing-30-day temperature window attached to a bill whose
reading date is 2024-02-15 contains exactly the weather entries whose
date lies in the closed interval [2024-01-16, 2024-02-15]. -/
theorem c7_trailing_window (weather : List (ℤ × ℚ)) (e : ℤ × ℚ) :
    (e ∈ selectPeriod weather (daysFromCivil 2024 2 15) ↔
      e ∈ weather ∧ (daysFromCivil 2024 1 16 : ℤ) ≤ e.1 ∧
        e.1 ≤ (daysFromCivil 2024 2 15 : ℤ)) ∧
    (daysFromCivil 2024 2 15 : ℤ) - 30 = (daysFromCivil 2024 1 16 : ℤ) := by
  have hd : (daysFromCivil 2024 2 15 : ℤ) - 30 = (daysFromCivil 2024 1 16 : ℤ) := by
    decide
  refine ⟨?_, hd⟩
  unfold selectPeriod
  rw [List.mem_filter]
  simp only [decide_eq_true_eq]
  rw [hd]

/-! ## Bill extractor lemmas (claim C8) -/

lemma processLoop_skip_all {α : Type} (extract : String → Option α) :
    ∀ (dir : List String) (history : List (BillRec α)) (processed : List String)
      (count : ℕ),
      (∀ f ∈ dir, f ∈ processed) →
      processLoop extract dir history processed count = (count, history) := by
  intro dir
  induction dir with
  | nil => intro history processed count _; rfl
  | cons f fs ih =>
    intro history processed count h
    have hf : f ∈ processed := h f (List.mem_cons_self f fs)
    simp only [processLoop, if_pos hf]
    exact ih history processed count fun g hg => h g (List.mem_cons_of_mem f hg)

lemma keysOf_append_one {α : Type} (history : List (BillRec α)) (f : String) (d : α) :
    keysOf (history ++ [⟨some f, d⟩]) = keysOf history ++ [f] := by
  unfold keysOf
  rw [List.filterMap_append]
  rfl

lemma mem_processedSet_of {α : Type} (history : List (BillRec α)) (k : String)
    (hk : k ∈ keysOf history) (hne : k ≠ "") : k ∈ processedSet history := by
  unfold keysOf at hk
  rw [List.mem_filterMap] at hk
  rcases hk with ⟨r, hr, hrk⟩
  unfold processedSet
  rw [List.mem_filterMap]
  refine ⟨r, hr, ?_⟩
  rw [hrk]
  simp [hne]

lemma processLoop_nodup {α : Type} (extract : String → Option α) :
    ∀ (dir : List String) (history : List (BillRec α)) (processed : List String)
      (count : ℕ),
      (∀ f ∈ dir, f ≠ "") →
      (keysOf history).Nodup →
      (∀ k ∈ keysOf history, k ≠ "" → k ∈ processed) →
      (keysOf (processLoop extract dir history processed count).2).Nodup := by
  intro dir
  induction dir with
  | nil => intro history processed count _ hnd _; exact hnd
  | cons f fs ih =>
    intro history processed count hdir hnd hinv
    by_cases hf : f ∈ processed
    · simp only [processLoop, if_pos hf]
      exact ih history processed count (fun g hg => hdir g (List.mem_cons_of_mem f hg))
        hnd hinv
    · simp only [processLoop, if_neg hf]
      cases hex : extract f with
      | none =>
        exact ih history processed count
          (fun g hg => hdir g (List.mem_cons_of_mem f hg)) hnd hinv
      | some d =>
        have hfne : f ≠ "" := hdir f (List.mem_cons_self f fs)
        have hfnotkey : f ∉ keysOf history := fun hmem => hf (hinv f hmem hfne)
        have hnd' : (keysOf (history ++ [⟨some f, d⟩])).Nodup := by
          rw [keysOf_append_one, List.nodup_append]
          refine ⟨hnd, List.nodup_singleton f, ?_⟩
          intro a ha hb
          rw [List.mem_singleton] at hb
          subst hb
          exact hfnotkey ha
        have hinv' : ∀ k ∈ keysOf (history ++ [⟨some f, d⟩]), k ≠ "" →
            k ∈ f :: processed := by
          intro k hk hke
          rw [keysOf_append_one, List.mem_append] at hk
          rcases hk with hk | hk
          · exact List.mem_cons_of_mem f (hinv k hk hke)
          · rw [List.mem_singleton] at hk
            subst hk
            exact List.mem_cons_self k processed
        exact ih (history ++ [⟨some f, d⟩]) (f :: processed) (count + 1)
          (fun g hg => hdir g (List.mem_cons_of_mem f hg)) hnd' hinv'

/-- A bill history whose source-filename key is duplicated before the
extractor runs. -/
def c8BadHistory : List (BillRec ℕ) := [⟨some "a.pdf", 0⟩, ⟨some "a.pdf", 1⟩]

/-- C8 counterexample: on a store that already contains two records
keyed by the same source filename and an empty input directory, the
extractor leaves the store unchanged, so the source-filename key is not
unique after it runs — refuting the claim as universally stated. -/
theorem c8_counterexample :
    ¬ (keysOf (process_all_faturas (fun _ => (none : Option ℕ)) []
        c8BadHistory).2).Nodup := by decide

/-- C8 (amended): if the source-filename keys of the initial store are
pairwise distinct, they remain pairwise distinct after the extractor
runs (PDF filenames being non-empty); and re-running the extractor on an
unchanged directory whose files were all processed successfully adds
zero new records and leaves the store unchanged. -/
theorem c8_amended_unique_keys (α : Type) (extract : String → Option α)
    (dir : List String) (history : List (BillRec α))
    (hdir : ∀ f ∈ dir, f ≠ "") :
    ((keysOf history).Nodup →
      (keysOf (process_all_faturas extract dir history).2).Nodup) ∧
    ((∀ f ∈ dir, f ∈ processedSet history) →
      process_all_faturas extract dir history = (0, history)) := by
  constructor
  · intro hnd
    exact processLoop_nodup extract dir history (processedSet history) 0 hdir hnd
      (fun k hk hke => mem_processedSet_of history k hk hke)
  · intro hall
    exact processLoop_skip_all extract dir history (processedSet history) 0 hall

/-- The extraction oracle of the C8 witness (every file succeeds). -/
def c8Extract : String → Option ℕ := fun _ => some 7

/-- The initial store of the C8 witness: one record keyed `a.pdf`. -/
def c8Hist : List (BillRec ℕ) := [⟨some "a.pdf", 0⟩]

/-- C8 witness: a store holding `a.pdf` and a directory containing only
`a.pdf`: keys stay unique and the re-run adds zero records. -/
theorem c8_amended_unique_keys_witness :
    (keysOf (process_all_faturas c8Extract ["a.pdf"] c8Hist).2).Nodup ∧
    process_all_faturas c8Extract ["a.pdf"] c8Hist = (0, c8Hist) :=
  ⟨(c8_amended_unique_keys ℕ c8Extract ["a.pdf"] c8Hist (by decide)).1 (by decide),
   (c8_amended_unique_keys ℕ c8Extract ["a.pdf"] c8Hist (by decide)).2 (by decide)⟩
